import Mathlib

/-!
# Verification of the FAKE_NEWS_CHECKER reference pipeline

A shallow embedding, in Lean 4, of the pure logic of the repository's
backend (`text_utils.py`, `similarity_checker.py`, `crawler.py`,
`preprocessor.py`, `web_searcher.py`, `fact_checker.py`), together with
theorems settling the frozen specification claims.

Modelling conventions:
* Python `float` values are modelled as rationals (`ℚ`); every comparison
  the theorems exercise is against the literal thresholds of the source
  (0.3, 0.5, 0.6, 0.7, 0.85), at inputs where the float and rational
  comparisons agree.
* External I/O (HTTP fetches, the Google API, the embedding model, HTML
  parsing) is out of scope per the specification; each such call site is
  modelled as an oracle argument (`Except`/`Option`-valued for fallible
  calls), while all surrounding control flow is translated from the source.
* `unicodedata.normalize("NFC", s)` and Python's Unicode `str.lower` are
  modelled as the identity and per-`Char` ASCII lowering respectively; all
  concrete inputs used in witnesses and counterexamples are NFC-normalized
  and contain no uppercase letters outside ASCII, where the models are exact.
* Mutable state (the query cache) is passed and returned explicitly.
-/

namespace FakeNews

/-! ## Basic text primitives shared by the embedding -/

/-- Accumulator-based splitting on whitespace; `acc` holds the reversed
current word. -/
def wordsAux : List Char → List Char → List (List Char)
  | [], acc => if acc.isEmpty then [] else [acc.reverse]
  | c :: rest, acc =>
    if c.isWhitespace then
      if acc.isEmpty then wordsAux rest [] else acc.reverse :: wordsAux rest []
    else wordsAux rest (c :: acc)

/-- Python `str.split()` / `re.sub(r"\s+", " ", ·)` helper: the maximal
whitespace-free groups of a character list, in order. -/
def words (cs : List Char) : List (List Char) :=
  wordsAux cs []

/-- Python `str.split()`: split on runs of whitespace, dropping empty parts. -/
def splitPy (s : String) : List String :=
  (words s.data).map String.mk

/-- Python `str.strip()`: drop leading and trailing whitespace. -/
def strip (s : String) : String :=
  String.mk (((s.data.dropWhile Char.isWhitespace).reverse.dropWhile Char.isWhitespace).reverse)

/-- Python `str.lower()`, modelled per-`Char` (exact on ASCII; the
Vietnamese data exercised by the theorems is lowercase already). -/
def lowerStr (s : String) : String :=
  String.mk (s.data.map Char.toLower)

/-- Holds when `needle` occurs as a contiguous sublist of `hay`
(the semantics of Python's `needle in hay` on strings). -/
def isSubListOf (needle : List Char) : List Char → Bool
  | [] => needle.isEmpty
  | c :: rest => needle.isPrefixOf (c :: rest) || isSubListOf needle rest

/-- Python `needle in hay` for strings. -/
def containsSub (hay needle : String) : Bool :=
  isSubListOf needle.data hay.data

/-- Python `url.split(sep)[0]`: the prefix before the first occurrence of
`sep`. -/
def splitFirst (sep : Char) (cs : List Char) : List Char :=
  cs.takeWhile (· ≠ sep)

/-- Embedding of `url.split("?")[0].split("#")[0]` — the URL-normalization used both by
the orchestrator's self-reference filter (`fact_checker.py`) and by the
spec's notion of a normalized URL. -/
def clean_url (u : String) : String :=
  String.mk (splitFirst '#' (splitFirst '?' u.data))

/-- The characters after the first `"//"`, if any. -/
def afterSchemeSep : List Char → Option (List Char)
  | [] => none
  | '/' :: '/' :: rest => some rest
  | _ :: rest => afterSchemeSep rest

/-- Embedding of `urlparse(url).netloc` for the `scheme://host/path` URLs the pipeline
handles: the part between the first `"//"` and the next `'/'`. -/
def netloc (url : String) : String :=
  match afterSchemeSep url.data with
  | some rest => String.mk (rest.takeWhile (· ≠ '/'))
  | none => ""

/-- Python `str.isdigit()`: non-empty and all digits. -/
def isdigitStr (s : String) : Bool :=
  !s.data.isEmpty && s.data.all Char.isDigit

/-- Decidable equality of `Except` values, used to evaluate the embedding
of fallible functions at concrete inputs. -/
instance exceptDecEq {ε α : Type} [DecidableEq ε] [DecidableEq α] :
    DecidableEq (Except ε α) := fun a b =>
  match a, b with
  | Except.error x, Except.error y =>
    if h : x = y then isTrue (by rw [h]) else isFalse (by simp [h])
  | Except.error _, Except.ok _ => isFalse (by simp)
  | Except.ok _, Except.error _ => isFalse (by simp)
  | Except.ok x, Except.ok y =>
    if h : x = y then isTrue (by rw [h]) else isFalse (by simp [h])

/-! ## `text_utils.normalize_text` (also `TextPreprocessor.normalize_text`,
an identical copy in `preprocessor.py`) -/

/-- The Vietnamese letters listed in the character class of
`normalize_text`'s substitution regex. -/
def vietLetters : List Char :=
  "áàảãạăắằẳẵặâấầẩẫậéèẻẽẹêếềểễệíìỉĩịóòỏõọôốồổỗộơớờởỡợúùủũụưứừửữựýỳỷỹỵđ".data

/-- A character NOT substituted by the regex
`[^\w\s.,!?;:\-\(\)<vietnamese letters>]` of `normalize_text`.
`\w` is modelled as ASCII alphanumerics, the underscore, and the Vietnamese
letters the class lists explicitly (the only word characters in the data
the theorems exercise). -/
def keptChar (c : Char) : Bool :=
  c.isAlphanum || c = '_' || c.isWhitespace ||
    ['.', ',', '!', '?', ';', ':', '-', '(', ')'].contains c ||
    vietLetters.contains c

/-- Embedding of `text_utils.normalize_text`: NFC-normalize (modelled as identity),
lowercase, substitute every character outside the kept class by a space,
collapse whitespace runs to single spaces, and strip. -/
def normalize_text (text : String) : String :=
  if text.data.isEmpty then ""
  else
    let lowered := text.data.map Char.toLower
    let replaced := lowered.map fun c => if keptChar c then c else ' '
    String.mk (List.intercalate [' '] (words replaced))

/-! ## `similarity_checker.py` -/

/-- The dict returned by `SimilarityChecker.generate_verdict`. -/
structure Verdict where
  verdict : String
  label : String
  explanation : String
  color : String
  similarity_score : ℚ
  confidence : ℚ
deriving DecidableEq

/-- Embedding of `SimilarityChecker.generate_verdict`: fixed thresholds, plus
`confidence = abs(similarity_score - 0.5) * 2`. -/
def generate_verdict (similarity_score : ℚ) : Verdict :=
  if similarity_score ≥ 85/100 then
    ⟨"HIGHLY_LIKELY_TRUE", "Rất có khả năng đúng",
      "Nội dung có độ tương đồng rất cao với các nguồn tin uy tín.", "green",
      similarity_score, |similarity_score - 1/2| * 2⟩
  else if similarity_score ≥ 70/100 then
    ⟨"LIKELY_TRUE", "Có khả năng đúng",
      "Nội dung khá tương đồng với các nguồn tin uy tín, nhưng cần xem xét thêm.", "lightgreen",
      similarity_score, |similarity_score - 1/2| * 2⟩
  else if similarity_score ≥ 50/100 then
    ⟨"UNCERTAIN", "Không chắc chắn",
      "Nội dung có một số điểm tương đồng nhưng cần kiểm chứng kỹ hơn.", "orange",
      similarity_score, |similarity_score - 1/2| * 2⟩
  else if similarity_score ≥ 30/100 then
    ⟨"LIKELY_FALSE", "Có khả năng sai",
      "Nội dung có ít điểm tương đồng với các nguồn tin uy tín.", "coral",
      similarity_score, |similarity_score - 1/2| * 2⟩
  else
    ⟨"HIGHLY_LIKELY_FALSE", "Rất có khả năng sai",
      "Nội dung có độ tương đồng rất thấp với các nguồn tin uy tín.", "red",
      similarity_score, |similarity_score - 1/2| * 2⟩

/-- An element of the list returned by
`SimilarityChecker.calculate_similarity_batch`. -/
structure BatchItem where
  text : String
  similarity : ℚ
  index : Nat
deriving DecidableEq, Inhabited

/-- Stable insertion (descending by `similarity`): an element is placed
before the first strictly smaller similarity, after all equal ones. -/
def insertDesc (x : BatchItem) : List BatchItem → List BatchItem
  | [] => [x]
  | y :: ys => if y.similarity < x.similarity then x :: y :: ys else y :: insertDesc x ys

/-- Stable descending sort by `similarity`— extensionally the behavior of
Python's stable `list.sort(key=..., reverse=True)`. -/
def sortDesc (l : List BatchItem) : List BatchItem :=
  l.foldl (fun acc x => insertDesc x acc) []

/-- Embedding of `SimilarityChecker.calculate_similarity_batch`: the cosine similarities
themselves come from the external embedding model (here the oracle list
`sims`, one value per reference text, as produced by `util.cos_sim`); the
function zips them with their original indices and sorts descending. -/
def calculate_similarity_batch (sims : List ℚ) (reference_texts : List String) :
    List BatchItem :=
  let items := (reference_texts.zip sims).enum.map fun p => ⟨p.2.1, p.2.2, p.1⟩
  sortDesc items

/-! ## `crawler.py` and the crawling part of `preprocessor.py`

The HTTP fetch and the HTML `title`/`description`/body extraction consume
external capabilities (the network and the document-query layer); one fetch
attempt is modelled by its observable outcome: an exception, or an HTTP
status code together with the three extracted fields. The length guards and
the normalization applied to the returned record are translated from the
source. -/

/-- The three fields `_extract_title` / `_extract_description` /
`_extract_content` produce from a fetched document. -/
structure Extracted where
  title : String
  description : String
  content : String
deriving DecidableEq, Inhabited

/-- The record returned by a successful extraction
(`Crawler._try_requests_method`, `TextPreprocessor.extract_from_url`). -/
structure CrawledArticle where
  title : String
  description : String
  content : String
  url : String
  domain : String
deriving DecidableEq, Inhabited

/-- The observable outcome of one fetch attempt inside
`Crawler._try_requests_method`: an exception, or a response with its HTTP
status code and the fields extracted from its body. -/
inductive FetchOutcome where
  | failure
  | status (code : Nat) (doc : Extracted)
deriving DecidableEq

/-- The retry loop of `Crawler._try_requests_method` over the attempts'
outcomes: an attempt succeeds when the status is 200 and the raw extracted
content is non-empty with length (strictly) over 100; the returned record
holds the `normalize_text`-ed fields. -/
def tryRequestsLoop (url : String) : List FetchOutcome → Option CrawledArticle
  | [] => none
  | FetchOutcome.failure :: rest => tryRequestsLoop url rest
  | FetchOutcome.status code doc :: rest =>
    if code = 200 ∧ doc.content ≠ "" ∧ doc.content.length > 100 then
      some ⟨normalize_text doc.title, normalize_text doc.description,
        normalize_text doc.content, url, netloc url⟩
    else tryRequestsLoop url rest

/-- Embedding of `Crawler._try_requests_method` with `max_retries = 3`: at most the
first three attempts are made. -/
def tryRequestsMethod (url : String) (attempts : List FetchOutcome) :
    Option CrawledArticle :=
  tryRequestsLoop url (attempts.take 3)

/-- The observable outcome of the single fetch in
`TextPreprocessor.extract_from_url`: an exception (any of the three caught
classes), or a 2xx response with its extracted fields
(`raise_for_status` turns error statuses into the exception case). -/
inductive FetchResult where
  | failure
  | success (doc : Extracted)
deriving DecidableEq

/-- Embedding of `TextPreprocessor.extract_from_url`: returns `None` when the raw
extracted content is empty or shorter than 100 characters, else the record
with `normalize_text`-ed fields. -/
def extract_from_url (url : String) (fetched : FetchResult) :
    Option CrawledArticle :=
  match fetched with
  | FetchResult.failure => none
  | FetchResult.success doc =>
    if doc.content = "" ∨ doc.content.length < 100 then none
    else
      some ⟨normalize_text doc.title, normalize_text doc.description,
        normalize_text doc.content, url, netloc url⟩

/-! ## `web_searcher.py` -/

/-- The stopword set of `WebSearcher.build_smart_queries`. -/
def stopwords : List String :=
  ["của", "và", "có", "được", "là", "cho", "với", "tại", "từ",
   "này", "đó", "đã", "sẽ", "trong", "một", "các", "những", "chỉ", "khắp", "khỏi",
   "không", "người", "dân", "phải", "bị", "theo", "về", "hay",
   "khi", "nếu", "như", "đến", "đang", "còn", "đều", "cả",
   "sau", "trước", "giữa", "ngoài", "trên", "dưới", "ngày",
   "hoặc", "nhưng", "mà", "nên", "thì", "rằng", "vì", "do",
   "nào", "gì", "ai", "đâu", "bao", "lúc", "nơi", "việc", "chúng",
   "hai", "ba", "bốn", "năm", "sáu", "bảy", "tám", "chín", "mười",
   "cho biết", "theo đó", "tại đây", "như vậy", "bởi vì",
   "đồng thời", "ngoài ra", "tuy nhiên", "do đó", "vì vậy",
   "nói", "biết", "thấy", "thể", "cần", "làm", "đi"]

/-- Python `' '.join(parts)`. -/
def joinSpace (parts : List String) : String :=
  String.intercalate " " parts

/-- The length-gating loop of `build_smart_queries`: strip each candidate
query, require its length to be strictly over 10 if it contains a digit and
strictly over 15 otherwise, and drop duplicates (the `seen` set is the set
of queries already accepted). -/
def gateLoop : List String → List String → List String
  | [], acc => acc
  | q :: rest, acc =>
    let q := strip q
    let min_length : Nat := if q.data.any Char.isDigit then 10 else 15
    if q.length > min_length ∧ ¬ acc.contains q then gateLoop rest (acc ++ [q])
    else gateLoop rest acc

/-- The emergency-fallback words of `build_smart_queries`: the first 3
words over 3 characters of the title, else of the keyword list. -/
def emergencyWords (keywords : List String) (title : String) : List String :=
  let fromTitle := if title ≠ "" then ((splitPy title).filter fun w => w.length > 3).take 3 else []
  if fromTitle = [] ∧ keywords ≠ [] then (keywords.filter fun k => k.length > 3).take 3
  else fromTitle

/-- The four query-construction branches of `build_smart_queries` (the
`queries` list before length gating). The `numbers` argument stands for
`extract_numbers_from_text(title + " " + full_text)` (a regex scan whose
patterns all require a digit, so it is `[]` on digit-free input); the
theorems quantify over every possible `numbers` value, and every concrete
instance uses the value the regex scan yields on its input. -/
def candidate_queries (keywords : List String) (title : String)
    (numbers : List String) : List String :=
  let queries : List String := []
  let queries :=
    if title ≠ "" ∧ numbers ≠ [] then
      let important_words := ((splitPy title).filter fun w =>
        ¬ stopwords.contains (lowerStr w) ∧ w.length > 2 ∧ ¬ isdigitStr w).take 4
      let query_parts := important_words ++ numbers.take 2
      if query_parts.length ≥ 3 then queries ++ [joinSpace query_parts] else queries
    else queries
  let queries :=
    if title ≠ "" then
      let important_words := ((splitPy title).filter fun w =>
        ¬ stopwords.contains (lowerStr w) ∧ w.length > 3 ∧ ¬ isdigitStr w).take 5
      if important_words.length ≥ 3 then queries ++ [joinSpace important_words] else queries
    else queries
  let queries :=
    if keywords ≠ [] ∧ numbers ≠ [] then
      let filtered_keywords := (keywords.filter fun k =>
        k.length > 2 ∧ ¬ stopwords.contains (lowerStr k) ∧ ¬ isdigitStr k).take 4
      if filtered_keywords ≠ [] then
        queries ++ [joinSpace (filtered_keywords ++ numbers.take 1)]
      else queries
    else queries
  let queries :=
    if queries = [] ∧ keywords ≠ [] then
      let filtered_keywords := (keywords.filter fun k =>
        k.length > 2 ∧ ¬ stopwords.contains (lowerStr k) ∧ ¬ isdigitStr k).take 5
      if filtered_keywords ≠ [] then queries ++ [joinSpace filtered_keywords] else queries
    else queries
  queries

/-- Embedding of `WebSearcher.build_smart_queries`: the four construction branches,
the length gate with de-duplication, the emergency fallback when nothing
passed the gate, truncated to 3. -/
def build_smart_queries (keywords : List String) (title : String)
    (numbers : List String) : List String :=
  let unique_queries := gateLoop (candidate_queries keywords title numbers) []
  let unique_queries :=
    if unique_queries = [] ∧ (title ≠ "" ∨ keywords ≠ []) then
      let ew := emergencyWords keywords title
      if ew ≠ [] then unique_queries ++ [joinSpace ew] else unique_queries
    else unique_queries
  unique_queries.take 3

/-- A candidate article produced by a search strategy
(the dicts appended to `results` in `web_searcher.py`). -/
structure Candidate where
  url : String
  title : String
  snippet : String
  source : String
  domain : String
deriving DecidableEq, Inhabited

/-- One item of a Google results page (an entry of `data['items']` for the
Custom Search API, or one parsed `div.g` for the scraping fallback): the
link and the lifted title/snippet. -/
structure Item where
  link : String
  title : String
  snippet : String
deriving DecidableEq

/-- The keys of `WebSearcher.trusted_sources`, in insertion order — also
the `priority_sources` list of `search_for_fact_check`. -/
def trusted_domains : List String :=
  ["vnexpress.net", "tuoitre.vn", "thanhnien.vn", "dantri.com.vn", "vietnamnet.vn"]

/-- Embedding of `WebSearcher.search_google_custom_api`: empty without credentials;
empty on any exception (the whole body is in a `try`); otherwise keeps the
items whose link contains a trusted domain, shaping each into a
`Candidate` with source `"Google Search"`. -/
def search_google_custom_api (creds : Bool) (resp : Except String (List Item)) :
    List Candidate :=
  if ¬ creds then []
  else
    match resp with
    | Except.error _ => []
    | Except.ok items =>
      (items.filter fun it => trusted_domains.any fun d => containsSub it.link d).map
        fun it => ⟨it.link, it.title, it.snippet, "Google Search", netloc it.link⟩

/-- Embedding of `WebSearcher.search_on_source_advanced`: the body (site search-page
fetch plus container/link scraping over the document-query capability) is
modelled by its outcome; the function catches every exception and returns
`[]` in that case. -/
def search_on_source_advanced (outcome : Except String (List Candidate)) :
    List Candidate :=
  match outcome with
  | Except.error _ => []
  | Except.ok results => results

/-- Embedding of `WebSearcher.search_parallel`: one site search per source; a
per-future failure is caught by the inner `try` and skipped, successes are
concatenated (completion order modelled as submission order). The
`for future in as_completed(futures, timeout=30)` iteration itself sits
OUTSIDE that `try`: when the 30-second wall-clock bound fires before every
future completes — abstracted here by the Boolean `timedOut` — it raises
`concurrent.futures.TimeoutError`, which no handler in `search_parallel`
or `search_for_fact_check` catches, so the accumulated results are
abandoned and the exception propagates. -/
def search_parallel (timedOut : Bool) (outcomes : List (Except String (List Candidate))) :
    Except String (List Candidate) :=
  if timedOut then Except.error "concurrent.futures.TimeoutError"
  else
    Except.ok (outcomes.foldl
      (fun all_results o => match o with
        | Except.error _ => all_results
        | Except.ok results => all_results ++ results)
      [])

/-- Embedding of `WebSearcher.search_google_scraping`: `[]` on any exception; otherwise
keeps the parsed result blocks whose unwrapped URL contains a trusted
domain and whose lifted title is non-empty. -/
def search_google_scraping (resp : Except String (List Item)) : List Candidate :=
  match resp with
  | Except.error _ => []
  | Except.ok divs =>
    (divs.filter fun it =>
        (trusted_domains.any fun d => containsSub it.link d) ∧ it.title ≠ "").map
      fun it => ⟨it.link, it.title, it.snippet, "Google Search", netloc it.link⟩

/-- The `SmartCache` contents: query ↦ cached results. The md5 content key
is modelled by the query string itself, and entries are within their TTL
(expiry is wall-clock behavior outside the embedding). -/
abbrev Cache : Type := List (String × List Candidate)

/-- Embedding of `SmartCache.get` (for an unexpired entry). -/
def cacheGet (cache : Cache) (query : String) : Option (List Candidate) :=
  List.lookup query cache

/-- Embedding of `SmartCache.set`: overwrite the entry for the query's key. -/
def cacheSet (cache : Cache) (query : String) (data : List Candidate) : Cache :=
  (query, data) :: cache

/-- The per-request search capabilities of a `WebSearcher` instance:
whether Google credentials are configured, the observable outcomes of the
three strategies' external calls per query (and per domain for the site
searches), and — per query — whether the parallel stage's 30-second
`as_completed` bound fires before every site-search future completes. -/
structure SearchOracle where
  creds : Bool
  api : String → Except String (List Item)
  perSite : String → String → Except String (List Candidate)
  parallelTimeout : String → Bool
  scrape : String → Except String (List Item)

/-- The three-strategy cascade of one cache-miss iteration of
`search_for_fact_check`: the Google API (when credentials are configured),
then — while fewer than `num_results` were collected — the parallel site
search, whose uncaught `TimeoutError` aborts the whole iteration, then the
scraping fallback. -/
def run_strategies (O : SearchOracle) (num_results : Nat) (query : String) :
    Except String (List Candidate) :=
  let query_results := if O.creds then search_google_custom_api O.creds (O.api query) else []
  match (if query_results.length < num_results then
      Except.map (fun parallel_results => query_results ++ parallel_results)
        (search_parallel (O.parallelTimeout query)
          (trusted_domains.map fun d => O.perSite d query))
    else Except.ok query_results) with
  | Except.error e => Except.error e
  | Except.ok query_results =>
    Except.ok (if query_results.length < num_results then
        query_results ++ search_google_scraping (O.scrape query)
      else query_results)

/-- The per-query loop of `WebSearcher.search_for_fact_check`: a non-empty
fresh cache entry is taken as-is (and `continue` skips the stop check);
otherwise the three strategies run in order (an uncaught `TimeoutError`
from the parallel stage propagates out of the loop), the non-empty result
is cached, and the loop stops once the accumulated results reach
`2 * num_results`. -/
def query_loop (O : SearchOracle) (cacheEnabled : Bool) (num_results : Nat) :
    List String → List Candidate → Cache → Except String (List Candidate × Cache)
  | [], all_results, cache => Except.ok (all_results, cache)
  | query :: rest, all_results, cache =>
    let cached := if cacheEnabled then (cacheGet cache query).getD [] else []
    if cached ≠ [] then
      query_loop O cacheEnabled num_results rest (all_results ++ cached) cache
    else
      match run_strategies O num_results query with
      | Except.error e => Except.error e
      | Except.ok query_results =>
        let cache' := if cacheEnabled ∧ query_results ≠ [] then cacheSet cache query query_results
          else cache
        let all_results' := all_results ++ query_results
        if num_results * 2 ≤ all_results'.length then Except.ok (all_results', cache')
        else query_loop O cacheEnabled num_results rest all_results' cache'

/-- One step of the merge/de-duplication of `search_for_fact_check`:
insert a result unless its raw `url` is already present. -/
def dedupStep (unique : List Candidate) (r : Candidate) : List Candidate :=
  if unique.any fun x => x.url = r.url then unique else unique ++ [r]

/-- The merge/de-duplication step of `search_for_fact_check`
(`unique_results = {}` keyed by the raw `result['url']`, first occurrence
wins, insertion order preserved). -/
def dedup_by_url (all_results : List Candidate) : List Candidate :=
  all_results.foldl dedupStep []

/-- Embedding of `WebSearcher.search_for_fact_check`: build queries, run the per-query
loop, de-duplicate by raw URL and truncate; the parallel stage's uncaught
`TimeoutError` propagates out of the method (there is no handler between
`as_completed` and the caller). The `ok` pair also carries the final
cache contents (the method mutates `self.cache`). -/
def search_for_fact_check (O : SearchOracle) (cacheEnabled : Bool) (cache : Cache)
    (keywords : List String) (title : String) (numbers : List String)
    (num_results : Nat) : Except String (List Candidate × Cache) :=
  if keywords = [] ∧ title = "" then Except.ok ([], cache)
  else
    let queries := build_smart_queries keywords title numbers
    if queries = [] then Except.ok ([], cache)
    else
      match query_loop O cacheEnabled num_results queries [] cache with
      | Except.error e => Except.error e
      | Except.ok p => Except.ok ((dedup_by_url p.1).take num_results, p.2)

/-! ## `fact_checker.py` -/

/-- One entry of `similarity_results` in `FactChecker.check_fact`
(the `detailed_similarity` key is always `None` and is omitted). -/
structure SimResult where
  url : String
  title : String
  domain : String
  source : String
  overall_similarity : ℚ
deriving DecidableEq, Inhabited

/-- The refutation keyword list of `FactChecker.check_fact`. -/
def refutation_keywords : List String :=
  ["bác bỏ", "phủ nhận", "đính chính", "tin đồn", "tin giả", "sự thật",
   "thực hư", "giả mạo", "vu khống"]

/-- The `final_scores` loop of step 5 of `check_fact`: a top score is
inverted (`1.0 - score`) exactly when the lowercased title contains a
refutation keyword AND the raw score exceeds 0.6. -/
def final_scores_loop : List SimResult → List ℚ
  | [] => []
  | r :: rest =>
    (if (refutation_keywords.any fun keyword => containsSub (lowerStr r.title) keyword) ∧
        r.overall_similarity > 6/10 then
      1 - r.overall_similarity
    else r.overall_similarity) :: final_scores_loop rest

/-- Step 5 of `FactChecker.check_fact` (verdict generation): take the top-3
similarity results, run the refutation adjustment over them, feed
`top_scores[0]` (0 when there are none) to `generate_verdict`. Returns
`(top_scores, highest_similarity, verdict)`. -/
def step5 (similarity_results : List SimResult) : List ℚ × ℚ × Verdict :=
  let top_results := similarity_results.take (min 3 similarity_results.length)
  let top_scores := if top_results = [] then [] else final_scores_loop top_results
  let highest_similarity : ℚ := if top_results = [] then 0 else top_scores.headD 0
  (top_scores, highest_similarity, generate_verdict highest_similarity)

/-- The parts of `TextPreprocessor.process_input`'s result that
`check_fact` and the searcher consume. `numbers` stands for
`extract_numbers_from_text(title + " " + full_text)` as in
`build_smart_queries`. -/
structure Processed where
  title : String
  keywords : List String
  full_text : String
  domain : Option String
  numbers : List String

/-- The parts of a `TextPreprocessor._process_url` result that the
crawling stage of `check_fact` consumes. -/
structure CrawlContent where
  title : String
  content : String
  domain : String
deriving DecidableEq, Inhabited

/-- One entry of `reference_contents` in `check_fact`. -/
structure RefContent where
  url : String
  title : String
  content : String
  domain : String
  snippet : String
  source : String
deriving DecidableEq, Inhabited

/-- Step 3 of `check_fact` (parallel crawling): each candidate whose
`_process_url` call yields a record with non-empty content is kept (with the
candidate's own title as fallback); a `None` result or a raised exception
drops the candidate. Completion order is modelled as submission order. -/
def crawl_stage (crawl : String → Option CrawlContent) (articles : List Candidate) :
    List RefContent :=
  articles.foldl
    (fun reference_contents a =>
      match crawl a.url with
      | some c =>
        if c.content ≠ "" then
          reference_contents ++
            [⟨a.url, if c.title ≠ "" then c.title else a.title, c.content,
              c.domain, a.snippet, a.source⟩]
        else reference_contents
      | none => reference_contents)
    []

/-- Step 4 of `check_fact`: batch-score the full text against the crawled
bodies (`simOf` is the external model's cosine similarity against the
query text) and map each batch item back to its reference's metadata via
the preserved `index`. -/
def similarity_stage (simOf : String → ℚ) (reference_contents : List RefContent) :
    List SimResult :=
  let reference_texts := reference_contents.map fun rc => rc.content
  let batch := calculate_similarity_batch (reference_texts.map simOf) reference_texts
  batch.map fun b =>
    let m := reference_contents.getD b.index default
    ⟨m.url, m.title, m.domain, m.source, b.similarity⟩

/-- The keys of the `results` dict of `check_fact` that the claims
observe (a key absent from the returned dict is `none`). -/
structure CheckResult where
  status : String
  message : Option String
  error : Option String
  verdict : Option Verdict
  average_similarity : Option ℚ
  highest_similarity : Option ℚ
  similarity_details : Option (List SimResult)
  top_references : Option (List SimResult)
deriving DecidableEq

/-- Embedding of `FactChecker.check_fact` over the pipeline's external capabilities:
the preprocessing result, the searcher's oracles and cache, the per-URL
crawl outcomes, and the similarity model. An exception propagating out of
the searcher (the parallel stage's `TimeoutError`) reaches the
method-wide `except Exception` handler, which returns status `"error"`
with the exception's message. -/
def check_fact (input_type user_input : String) (processed? : Option Processed)
    (O : SearchOracle) (cacheEnabled : Bool) (cache : Cache)
    (crawl : String → Option CrawlContent) (simOf : String → ℚ)
    (num_sources : Nat) : CheckResult :=
  match processed? with
  | none => ⟨"error", none, some "Không thể xử lý input", none, none, none, none, none⟩
  | some processed =>
    if processed.keywords = [] ∧ processed.full_text.length < 15 then
      ⟨"input_too_short",
        some "Nội dung quá ngắn hoặc không đủ ngữ nghĩa để phân tích. Vui lòng cung cấp thêm chi tiết.",
        none, none, none, none, none, none⟩
    else
      match search_for_fact_check O cacheEnabled cache
        processed.keywords processed.title processed.numbers num_sources with
      | Except.error e =>
        ⟨"error", none, some e, none, none, none, none, none⟩
      | Except.ok p =>
      let reference_articles := p.1
      if reference_articles = [] then
        ⟨"no_references", some "Không tìm thấy bài báo tham khảo từ nguồn uy tín",
          none, none, none, none, none, none⟩
      else
        let reference_articles :=
          if input_type = "url" then
            reference_articles.filter fun article =>
              clean_url article.url ≠ clean_url user_input
          else reference_articles
        if reference_articles = [] then
          if input_type = "url" then
            ⟨"no_other_references",
              some "Không tìm thấy bài báo tham khảo NÀO KHÁC. Đây có thể là tin gốc.",
              none, some (generate_verdict (1/2)), some (1/2), none, none, some []⟩
          else
            ⟨"no_references", some "Không tìm thấy bài báo tham khảo từ nguồn uy tín",
              none, none, none, none, none, none⟩
        else
          let reference_contents := crawl_stage crawl reference_articles
          if reference_contents = [] then
            ⟨"crawl_failed", some "Không thể crawl nội dung từ các bài báo tham khảo",
              none, none, none, none, none, none⟩
          else
            let similarity_results := similarity_stage simOf reference_contents
            let s5 := step5 similarity_results
            ⟨"success", none, none, some s5.2.2, none, some s5.2.1,
              some similarity_results,
              some (similarity_results.take (min 3 similarity_results.length))⟩

/-! ## Specification-side definitions and concrete scenario data -/

/-- The ordering of the verdict bands stated by the spec
("bands are ordered; higher score ⇒ same or more true-leaning label"):
`HIGHLY_LIKELY_FALSE < LIKELY_FALSE < UNCERTAIN < LIKELY_TRUE <
HIGHLY_LIKELY_TRUE`. -/
def band_rank (code : String) : Nat :=
  if code = "HIGHLY_LIKELY_TRUE" then 4
  else if code = "LIKELY_TRUE" then 3
  else if code = "UNCERTAIN" then 2
  else if code = "LIKELY_FALSE" then 1
  else 0

/-- A searcher whose every external call fails, whose Google credentials
are missing, and whose parallel stage never times out. -/
def searchFail : SearchOracle :=
  ⟨false, fun _ => Except.error "unreachable", fun _ _ => Except.error "unreachable",
    fun _ => false, fun _ => Except.error "unreachable"⟩

/-- A searcher without credentials whose parallel site-search stage hits
the 30-second `as_completed` bound on every query. -/
def c3timeoutOracle : SearchOracle :=
  ⟨false, fun _ => Except.error "unreachable", fun _ _ => Except.error "unreachable",
    fun _ => true, fun _ => Except.error "unreachable"⟩

/-- Scored references for the refutation scenario: the raw-rank-1 title
contains the refutation keyword "tin đồn" with raw score 0.9 (inverted to
0.1); the rank-2 title contains none of the nine keywords, raw score 0.7. -/
def c1results : List SimResult :=
  [⟨"https://vnexpress.net/1", "thực hư tin đồn về sự kiện", "vnexpress.net", "VnExpress", 9/10⟩,
   ⟨"https://vnexpress.net/2", "sự kiện diễn ra", "vnexpress.net", "VnExpress", 7/10⟩]

/-- A searcher whose API search returns, for every query, two results
whose URLs differ only by a query string. -/
def c2oracle : SearchOracle :=
  ⟨true,
   fun _ => Except.ok [⟨"https://vnexpress.net/x", "first result title", "s"⟩,
                       ⟨"https://vnexpress.net/x?ref=1", "second result title", "s"⟩],
   fun _ _ => Except.error "down",
   fun _ => false,
   fun _ => Except.error "down"⟩

/-- A searcher whose API search returns, for every query, one fresh
trusted-domain result. -/
def c9oracle : SearchOracle :=
  ⟨true,
   fun _ => Except.ok [⟨"https://vnexpress.net/unique-article", "fresh title", "s"⟩],
   fun _ _ => Except.error "down",
   fun _ => false,
   fun _ => Except.error "down"⟩

/-- A cached result list of length 2 — exactly `2 * num_results` for
`num_results = 1`. -/
def c9hit : List Candidate :=
  [⟨"https://tuoitre.vn/a", "cached title a", "", "Tuổi Trẻ", "tuoitre.vn"⟩,
   ⟨"https://tuoitre.vn/b", "cached title b", "", "Tuổi Trẻ", "tuoitre.vn"⟩]

/-- The first query variant built from title
`"breaking storm damage downtown"` with `numbers = ["2024"]`. -/
def c9query₁ : String := "breaking storm damage downtown 2024"

/-- The second query variant built from that title. -/
def c9query₂ : String := "breaking storm damage downtown"

/-- A cache holding `c9hit` for the first query variant only. -/
def c9cache : Cache := [(c9query₁, c9hit)]

/-- A searcher whose only hit is (a query-string variant of) the input URL
of the self-URL scenario. -/
def c7oracle : SearchOracle :=
  ⟨true,
   fun _ => Except.ok [⟨"https://vnexpress.net/article-x?utm=1", "the original article", "s"⟩],
   fun _ _ => Except.error "down",
   fun _ => false,
   fun _ => Except.error "down"⟩

/-- A processed input whose title yields one valid query. -/
def c7processed : Processed :=
  ⟨"breaking storm damage downtown", ["storm"], "breaking storm damage downtown", none, []⟩

/-- A raw extracted body of length 102 (over the 100-character gate) that
`normalize_text` collapses to `"ab"`: the 100 `'@'` characters are outside
the kept character class and become whitespace. -/
def c5raw : String := "ab" ++ String.mk (List.replicate 100 '@')

/-- A 150-character all-letter body that `normalize_text` leaves
unchanged. -/
def c5good : String := String.mk (List.replicate 150 'a')

/-- The crawled article produced from a 200-status fetch extracting
`c5good`. -/
def c5goodArticle : CrawledArticle :=
  ⟨"good title", "", c5good, "https://vnexpress.net/b", "vnexpress.net"⟩

/-! ## Helper lemmas -/

/-- The `confidence` field is the same expression in every branch of
`generate_verdict`. -/
lemma confidence_eq (s : ℚ) : (generate_verdict s).confidence = |s - 1/2| * 2 := by
  unfold generate_verdict
  split_ifs <;> rfl

/-- The verdict code of `generate_verdict` as a bare threshold chain. -/
lemma verdict_code (s : ℚ) :
    (generate_verdict s).verdict =
      if 85/100 ≤ s then "HIGHLY_LIKELY_TRUE"
      else if 70/100 ≤ s then "LIKELY_TRUE"
      else if 50/100 ≤ s then "UNCERTAIN"
      else if 30/100 ≤ s then "LIKELY_FALSE"
      else "HIGHLY_LIKELY_FALSE" := by
  unfold generate_verdict
  split_ifs <;> rfl

/-- The band rank of a generated verdict as a bare threshold chain. -/
lemma band_rank_verdict (s : ℚ) :
    band_rank (generate_verdict s).verdict =
      if 85/100 ≤ s then 4
      else if 70/100 ≤ s then 3
      else if 50/100 ≤ s then 2
      else if 30/100 ≤ s then 1
      else 0 := by
  rw [verdict_code]
  split_ifs <;> rfl

/-- Every query accepted by the length gate satisfies the strict
minimum-length rule (or was in the accumulator already). -/
lemma gateLoop_mem : ∀ (l acc : List String) (q : String), q ∈ gateLoop l acc →
    q ∈ acc ∨ (if q.data.any Char.isDigit then 10 else 15) < q.length := by
  intro l
  induction l with
  | nil => exact fun acc q h => Or.inl h
  | cons x rest ih =>
    intro acc q h
    simp only [gateLoop] at h
    split at h
    · rename_i hd
      split at h
      · rename_i hc
        rcases ih _ _ h with h' | h'
        · rcases List.mem_append.mp h' with h'' | h''
          · exact Or.inl h''
          · rw [List.mem_singleton] at h''
            subst h''
            rw [if_pos hd]
            exact Or.inr hc.1
        · exact Or.inr h'
      · exact ih _ _ h
    · rename_i hd
      split at h
      · rename_i hc
        rcases ih _ _ h with h' | h'
        · rcases List.mem_append.mp h' with h'' | h''
          · exact Or.inl h''
          · rw [List.mem_singleton] at h''
            subst h''
            rw [if_neg hd]
            exact Or.inr hc.1
        · exact Or.inr h'
      · exact ih _ _ h

/-- The length gate never accepts a duplicate. -/
lemma gateLoop_nodup : ∀ (l acc : List String), acc.Nodup → (gateLoop l acc).Nodup := by
  intro l
  induction l with
  | nil => exact fun acc h => h
  | cons x rest ih =>
    intro acc h
    simp only [gateLoop]
    split
    · split
      · rename_i hc
        refine ih _ ?_
        have hx : strip x ∉ acc := fun hmem => hc.2 (List.elem_iff.mpr hmem)
        simp [List.nodup_append, h, hx]
      · exact ih _ h
    · split
      · rename_i hc
        refine ih _ ?_
        have hx : strip x ∉ acc := fun hmem => hc.2 (List.elem_iff.mpr hmem)
        simp [List.nodup_append, h, hx]
      · exact ih _ h

/-- The output of `build_smart_queries` is the gated list truncated to 3,
or a single emergency query, or empty. -/
lemma bsq_cases (keywords : List String) (title : String) (numbers : List String) :
    build_smart_queries keywords title numbers =
        (gateLoop (candidate_queries keywords title numbers) []).take 3 ∨
      (∃ e, build_smart_queries keywords title numbers = [e]) ∨
      build_smart_queries keywords title numbers = [] := by
  unfold build_smart_queries
  dsimp only
  split_ifs with h1 h2
  · refine Or.inr (Or.inl ⟨joinSpace (emergencyWords keywords title), ?_⟩)
    rw [h1.1]
    simp
  · refine Or.inr (Or.inr ?_)
    rw [h1.1]
    simp
  · exact Or.inl rfl

/-- Taking `min 3 (length l)` elements is the same as taking 3. -/
lemma take_min_three {α : Type} (l : List α) : l.take (min 3 l.length) = l.take 3 := by
  rw [← List.take_take, List.take_length]

/-- A successful `tryRequestsLoop` run comes from a 200-status attempt in
the list whose raw content passes the strict 100-character gate; the stored
content is its normalization. -/
lemma tryRequestsLoop_spec : ∀ (url : String) (l : List FetchOutcome) (a : CrawledArticle),
    tryRequestsLoop url l = some a →
    ∃ doc code, FetchOutcome.status code doc ∈ l ∧ code = 200 ∧
      100 < doc.content.length ∧ a.content = normalize_text doc.content ∧ a.url = url := by
  intro url l
  induction l with
  | nil => intro a h; simp [tryRequestsLoop] at h
  | cons x rest ih =>
    intro a h
    cases x with
    | failure =>
      simp only [tryRequestsLoop] at h
      obtain ⟨doc, code, hm, hc⟩ := ih a h
      exact ⟨doc, code, List.mem_cons_of_mem _ hm, hc⟩
    | status code doc =>
      simp only [tryRequestsLoop] at h
      split at h
      · rename_i hcond
        have ha := Option.some.inj h
        refine ⟨doc, code, List.mem_cons_self _ _, hcond.1, hcond.2.2, ?_, ?_⟩
        · rw [← ha]
        · rw [← ha]
      · obtain ⟨d, c, hm, hc⟩ := ih a h
        exact ⟨d, c, List.mem_cons_of_mem _ hm, hc⟩

/-- The de-duplication fold never introduces two entries with the same raw
URL. -/
lemma dedupFold_nodup : ∀ (l acc : List Candidate),
    ((acc.map fun c => c.url).Nodup) →
    (((l.foldl dedupStep acc).map fun c => c.url).Nodup) := by
  intro l
  induction l with
  | nil => exact fun acc h => h
  | cons x rest ih =>
    intro acc h
    simp only [List.foldl_cons]
    refine ih _ ?_
    unfold dedupStep
    split
    · exact h
    · rename_i hc
      rw [List.map_append, List.map_singleton, List.nodup_append]
      refine ⟨h, List.nodup_singleton _, ?_⟩
      intro u hu hmem
      rw [List.mem_singleton] at hmem
      subst hmem
      apply hc
      rw [List.any_eq_true]
      obtain ⟨c, hc', hcu⟩ := List.mem_map.mp hu
      exact ⟨c, hc', by simp [hcu]⟩

/-- URLs already accumulated survive the de-duplication fold. -/
lemma dedupFold_mem_acc : ∀ (l acc : List Candidate) (u : String),
    u ∈ acc.map (fun c => c.url) →
    u ∈ (l.foldl dedupStep acc).map fun c => c.url := by
  intro l
  induction l with
  | nil => exact fun acc u h => h
  | cons x rest ih =>
    intro acc u h
    simp only [List.foldl_cons]
    refine ih _ _ ?_
    unfold dedupStep
    split
    · exact h
    · rw [List.map_append]
      exact List.mem_append_left _ h

/-- Every input URL is represented in the de-duplicated output. -/
lemma dedupFold_mem : ∀ (l acc : List Candidate) (r : Candidate), r ∈ l →
    r.url ∈ (l.foldl dedupStep acc).map fun c => c.url := by
  intro l
  induction l with
  | nil => intro acc r h; exact absurd h (List.not_mem_nil r)
  | cons x rest ih =>
    intro acc r h
    rcases List.mem_cons.mp h with h' | h'
    · subst h'
      simp only [List.foldl_cons]
      refine dedupFold_mem_acc rest _ _ ?_
      unfold dedupStep
      split
      · rename_i hc
        rw [List.any_eq_true] at hc
        obtain ⟨c, hcmem, hcu⟩ := hc
        simp only [decide_eq_true_eq] at hcu
        exact List.mem_map.mpr ⟨c, hcmem, hcu⟩
      · rw [List.map_append]
        refine List.mem_append_right _ ?_
        simp
    · simp only [List.foldl_cons]
      exact ih _ _ h'

/-- Folding the parallel-search accumulation over all-failing outcomes
leaves the accumulator unchanged. -/
lemma search_parallel_fold_fail :
    ∀ (outs : List (Except String (List Candidate))) (acc : List Candidate),
    (∀ o ∈ outs, ∃ e, o = Except.error e) →
    outs.foldl
      (fun all_results o => match o with
        | Except.error _ => all_results
        | Except.ok results => all_results ++ results) acc = acc := by
  intro outs
  induction outs with
  | nil => intro acc _; rfl
  | cons o rest ih =>
    intro acc h
    obtain ⟨e, he⟩ := h o (List.mem_cons_self o rest)
    subst he
    simp only [List.foldl_cons]
    exact ih acc fun o' ho' => h o' (List.mem_cons_of_mem _ ho')

/-- The function `search_parallel` without a timeout returns `ok []` when
every per-domain search fails. -/
lemma search_parallel_all_fail (outs : List (Except String (List Candidate)))
    (h : ∀ o ∈ outs, ∃ e, o = Except.error e) :
    search_parallel false outs = Except.ok [] := by
  unfold search_parallel
  simp only [Bool.false_eq_true, if_false]
  rw [search_parallel_fold_fail outs [] h]

/-- An error from `search_parallel` can only be the `as_completed`
timeout. -/
lemma search_parallel_error {t : Bool} {outs : List (Except String (List Candidate))}
    {e : String} (h : search_parallel t outs = Except.error e) : t = true := by
  cases t
  · simp [search_parallel] at h
  · rfl

/-- Mapping over an `Except` cannot introduce an error. -/
lemma except_map_error {α β : Type} {f : α → β} {x : Except String α} {e : String}
    (h : Except.map f x = Except.error e) : x = Except.error e := by
  cases x <;> simp_all [Except.map]

/-- An error from `run_strategies` comes only from the parallel stage's
timeout. -/
lemma run_strategies_error {O : SearchOracle} {n : Nat} {q : String} {e : String}
    (h : run_strategies O n q = Except.error e) : O.parallelTimeout q = true := by
  cases ht : O.parallelTimeout q
  · exfalso
    unfold run_strategies at h
    rw [ht] at h
    simp only [search_parallel, Bool.false_eq_true, if_false] at h
    split at h
    · rename_i o a heq
      split at heq <;> split at heq <;> simp [Except.map] at heq
    · simp at h
  · rfl

/-- When the API strategy yields nothing (missing credentials or an
exception), every site search fails, scraping fails and the parallel stage
does not time out, `run_strategies` returns `ok []`. -/
lemma run_strategies_all_fail (O : SearchOracle) (n : Nat) (q : String)
    (hapi : O.creds = false ∨ ∃ e, O.api q = Except.error e)
    (hs : ∀ d, ∃ e, O.perSite d q = Except.error e)
    (hg : ∃ e, O.scrape q = Except.error e)
    (hpt : O.parallelTimeout q = false) :
    run_strategies O n q = Except.ok [] := by
  have hstrat1 : (if O.creds then search_google_custom_api O.creds (O.api q) else []) =
      ([] : List Candidate) := by
    rcases hapi with hc | ⟨e, he⟩
    · simp [hc]
    · have h1 : search_google_custom_api O.creds (O.api q) = [] := by
        rw [he]
        unfold search_google_custom_api
        split <;> rfl
      simp [h1]
  have hpar : search_parallel false (trusted_domains.map fun d => O.perSite d q) =
      Except.ok [] := by
    apply search_parallel_all_fail
    intro o ho
    obtain ⟨d, _, rfl⟩ := List.mem_map.mp ho
    exact hs d
  have hscrape : search_google_scraping (O.scrape q) = [] := by
    obtain ⟨e, he⟩ := hg
    rw [he]
    rfl
  unfold run_strategies
  rw [hstrat1, hpt, hpar]
  simp [Except.map, hscrape]

/-- With missing credentials, all site searches failing, all scraping
failing and no parallel-stage timeout, the query loop (run on an empty
cache) adds nothing and caches nothing. -/
lemma query_loop_all_fail (O : SearchOracle) (ce : Bool) (n : Nat)
    (hc : O.creds = false)
    (hs : ∀ d q, ∃ e, O.perSite d q = Except.error e)
    (hg : ∀ q, ∃ e, O.scrape q = Except.error e)
    (hpt : ∀ q, O.parallelTimeout q = false) :
    ∀ (qs : List String) (acc : List Candidate),
      query_loop O ce n qs acc [] = Except.ok (acc, []) := by
  intro qs
  induction qs with
  | nil => intro acc; rfl
  | cons q rest ih =>
    intro acc
    have hrun : run_strategies O n q = Except.ok [] :=
      run_strategies_all_fail O n q (Or.inl hc) (fun d => hs d q) (hg q) (hpt q)
    simp only [query_loop, cacheGet, List.lookup_nil, hrun]
    simp [ih acc]

/-- One step of the query loop on a query whose cache entry is absent and
whose every strategy fails (without a parallel-stage timeout): the query
contributes nothing, is not cached, and (below the stop threshold)
processing continues with the rest. -/
lemma query_loop_skip_failed (O : SearchOracle) (ce : Bool) (n : Nat) (q : String)
    (rest : List String) (acc : List Candidate) (cache : Cache)
    (hapi : ∃ e, O.api q = Except.error e)
    (hs : ∀ d, ∃ e, O.perSite d q = Except.error e)
    (hg : ∃ e, O.scrape q = Except.error e)
    (hpt : O.parallelTimeout q = false)
    (hcache : cacheGet cache q = none)
    (hlen : acc.length < n * 2) :
    query_loop O ce n (q :: rest) acc cache = query_loop O ce n rest acc cache := by
  have hrun : run_strategies O n q = Except.ok [] :=
    run_strategies_all_fail O n q (Or.inr hapi) hs hg hpt
  simp only [query_loop, hcache, hrun]
  simp [Nat.not_le.mpr hlen]

/-- The query loop can fail only through a query whose parallel stage
timed out. -/
lemma query_loop_error (O : SearchOracle) (ce : Bool) (n : Nat) :
    ∀ (qs : List String) (acc : List Candidate) (cache : Cache) (e : String),
      query_loop O ce n qs acc cache = Except.error e →
      ∃ q ∈ qs, O.parallelTimeout q = true := by
  intro qs
  induction qs with
  | nil =>
    intro acc cache e h
    simp [query_loop] at h
  | cons q rest ih =>
    intro acc cache e h
    simp only [query_loop] at h
    by_cases hm : (if ce = true then (cacheGet cache q).getD [] else []) = ([] : List Candidate)
    · rw [hm, if_neg (by simp)] at h
      split at h
      · rename_i e' heq
        exact ⟨q, List.mem_cons_self _ _, run_strategies_error heq⟩
      · split at h
        · simp at h
        · obtain ⟨q', hq', ht⟩ := ih _ _ _ h
          exact ⟨q', List.mem_cons_of_mem _ hq', ht⟩
    · rw [if_pos hm] at h
      obtain ⟨q', hq', ht⟩ := ih _ _ _ h
      exact ⟨q', List.mem_cons_of_mem _ hq', ht⟩

/-- `search_for_fact_check` can fail only through a built query whose
parallel stage timed out. -/
lemma search_for_fact_check_error (O : SearchOracle) (ce : Bool) (cache : Cache)
    (keywords : List String) (title : String) (numbers : List String) (n : Nat)
    (e : String)
    (h : search_for_fact_check O ce cache keywords title numbers n = Except.error e) :
    ∃ q ∈ build_smart_queries keywords title numbers, O.parallelTimeout q = true := by
  unfold search_for_fact_check at h
  dsimp only at h
  split_ifs at h
  split at h
  · rename_i e' heq
    exact query_loop_error O ce n _ [] cache e' heq
  · simp at h

/-! ## Claim C4 — Query Builder output -/

/-- C4, counterexample: with no keywords, title `"viral memo"` and no
numbers in the text, the only query is the emergency fallback
`"viral memo"` — 10 characters, no digit — which violates the claimed
15-character minimum for digit-free queries. -/
theorem c4_counterexample :
    build_smart_queries [] "viral memo" [] = ["viral memo"] ∧
    ("viral memo".data.any Char.isDigit) = false ∧
    "viral memo".length < 15 := by
  refine ⟨by decide, by decide, by decide⟩

/-- C4, amended: `build_smart_queries` returns at most 3 queries, pairwise
distinct; every returned query satisfies the strict minimum-length rule
(length > 10 with a digit, > 15 without) unless it is the single emergency
fallback query, which bypasses the length gate. -/
theorem c4_amended (keywords : List String) (title : String) (numbers : List String) :
    (build_smart_queries keywords title numbers).length ≤ 3 ∧
    (build_smart_queries keywords title numbers).Nodup ∧
    ∀ q ∈ build_smart_queries keywords title numbers,
      (if q.data.any Char.isDigit then 10 else 15) < q.length ∨
        build_smart_queries keywords title numbers = [q] := by
  rcases bsq_cases keywords title numbers with h | ⟨e, h⟩ | h
  · rw [h]
    have hnd : (gateLoop (candidate_queries keywords title numbers) []).Nodup :=
      gateLoop_nodup _ _ List.nodup_nil
    refine ⟨List.length_take_le _ _, (List.take_sublist _ _).nodup hnd, ?_⟩
    intro q hq
    have hq' : q ∈ gateLoop (candidate_queries keywords title numbers) [] :=
      (List.take_sublist _ _).mem hq
    rcases gateLoop_mem _ _ _ hq' with h' | h'
    · exact absurd h' (List.not_mem_nil q)
    · exact Or.inl h'
  · rw [h]
    refine ⟨by simp, List.nodup_singleton e, ?_⟩
    intro q hq
    rw [List.mem_singleton] at hq
    subst hq
    exact Or.inr rfl
  · rw [h]
    exact ⟨by simp, List.nodup_nil, by simp⟩

/-- C4, witness for the amended theorem at a concrete input: the single
gated query built from a four-word English title. -/
theorem c4_witness :
    "breaking storm damage downtown" ∈
      build_smart_queries [] "breaking storm damage downtown" [] ∧
    ((if ("breaking storm damage downtown").data.any Char.isDigit then 10 else 15) <
        ("breaking storm damage downtown").length ∨
      build_smart_queries [] "breaking storm damage downtown" [] =
        ["breaking storm damage downtown"]) :=
  ⟨by decide, (c4_amended [] "breaking storm damage downtown" []).2.2 _ (by decide)⟩

/-! ## Claim C6 — confidence formula -/

/-- C6, counterexample: at score −0.5 (a raw cosine value below 0) the
returned confidence is 2, outside [0, 1]; the claimed clamped value would
be 1. The code applies no clamping. -/
theorem c6_counterexample :
    (generate_verdict (-(1:ℚ)/2)).confidence = 2 ∧
    ¬ (generate_verdict (-(1:ℚ)/2)).confidence ≤ 1 ∧
    min 1 (max 0 (|(-(1:ℚ)/2) - 1/2| * 2)) = 1 ∧ ((2:ℚ) ≠ 1) := by
  have h := confidence_eq (-(1:ℚ)/2)
  rw [h]
  norm_num

/-- C6, amended: the confidence equals `abs(score − 0.5) * 2` with no
clamping; it is always non-negative, and lies in [0, 1] exactly when the
score itself lies in [0, 1]. -/
theorem c6_amended (s : ℚ) :
    (generate_verdict s).confidence = |s - 1/2| * 2 ∧
    0 ≤ (generate_verdict s).confidence ∧
    ((generate_verdict s).confidence ≤ 1 ↔ 0 ≤ s ∧ s ≤ 1) := by
  refine ⟨confidence_eq s, ?_, ?_⟩
  · rw [confidence_eq]
    positivity
  · rw [confidence_eq]
    constructor
    · intro h
      have h' : |s - 1/2| ≤ 1/2 := by linarith
      rw [abs_le] at h'
      exact ⟨by linarith [h'.1], by linarith [h'.2]⟩
    · rintro ⟨h0, h1⟩
      have h' : |s - 1/2| ≤ 1/2 := by
        rw [abs_le]
        exact ⟨by linarith, by linarith⟩
      linarith

/-! ## Claim C8 — verdict thresholds and monotonicity -/

/-- C8: the verdict code follows exactly the claimed bands, and for
`s1 < s2` the band of `s1` is at or below the band of `s2`. -/
theorem c8_bands_monotone (s s1 s2 : ℚ) (h : s1 < s2) :
    ((generate_verdict s).verdict = "HIGHLY_LIKELY_TRUE" ↔ 85/100 ≤ s) ∧
    ((generate_verdict s).verdict = "LIKELY_TRUE" ↔ 70/100 ≤ s ∧ s < 85/100) ∧
    ((generate_verdict s).verdict = "UNCERTAIN" ↔ 50/100 ≤ s ∧ s < 70/100) ∧
    ((generate_verdict s).verdict = "LIKELY_FALSE" ↔ 30/100 ≤ s ∧ s < 50/100) ∧
    ((generate_verdict s).verdict = "HIGHLY_LIKELY_FALSE" ↔ s < 30/100) ∧
    band_rank (generate_verdict s1).verdict ≤ band_rank (generate_verdict s2).verdict := by
  have hs := verdict_code s
  refine ⟨?_, ?_, ?_, ?_, ?_, ?_⟩
  case' refine_6 =>
    rw [band_rank_verdict s1, band_rank_verdict s2]
    split_ifs <;> first | omega | (exfalso; linarith)
  all_goals
    rw [hs]
    split_ifs with h1 h2 h3 h4 <;> simp_all <;>
      first
        | linarith
        | (intro h'; linarith)
        | (exact ⟨by linarith, by linarith⟩)

/-- C8, witness at concrete scores 0.9 and 0.1 < 0.9. -/
theorem c8_witness :
    ((1:ℚ)/10 < 9/10) ∧
    (((generate_verdict ((9:ℚ)/10)).verdict = "HIGHLY_LIKELY_TRUE" ↔ 85/100 ≤ (9:ℚ)/10) ∧
      ((generate_verdict ((9:ℚ)/10)).verdict = "LIKELY_TRUE" ↔ 70/100 ≤ (9:ℚ)/10 ∧ (9:ℚ)/10 < 85/100) ∧
      ((generate_verdict ((9:ℚ)/10)).verdict = "UNCERTAIN" ↔ 50/100 ≤ (9:ℚ)/10 ∧ (9:ℚ)/10 < 70/100) ∧
      ((generate_verdict ((9:ℚ)/10)).verdict = "LIKELY_FALSE" ↔ 30/100 ≤ (9:ℚ)/10 ∧ (9:ℚ)/10 < 50/100) ∧
      ((generate_verdict ((9:ℚ)/10)).verdict = "HIGHLY_LIKELY_FALSE" ↔ (9:ℚ)/10 < 30/100) ∧
      band_rank (generate_verdict ((1:ℚ)/10)).verdict ≤
        band_rank (generate_verdict ((9:ℚ)/10)).verdict) :=
  ⟨by norm_num, c8_bands_monotone ((9:ℚ)/10) ((1:ℚ)/10) ((9:ℚ)/10) (by norm_num)⟩

/-! ## Claim C1 — refutation adjustment and the score fed to the verdict -/

/-- C1, counterexample: on `c1results` (sorted descending 0.9, 0.7; the
rank-1 title triggers the refutation inversion), the adjusted top scores
are [0.1, 0.7]; the score fed to `generate_verdict` is `top_scores[0]` =
0.1, not the maximum 0.7 of the adjusted scores. -/
theorem c1_counterexample :
    (step5 c1results).2.1 = 1/10 ∧
    (final_scores_loop (c1results.take (min 3 c1results.length))).foldr max 0 = 7/10 ∧
    (step5 c1results).2.1 ≠
      (final_scores_loop (c1results.take (min 3 c1results.length))).foldr max 0 ∧
    (step5 c1results).2.2 = generate_verdict (1/10) := by
  have h1 : (refutation_keywords.any fun keyword =>
      containsSub (lowerStr "thực hư tin đồn về sự kiện") keyword) = true := by decide
  have h2 : (refutation_keywords.any fun keyword =>
      containsSub (lowerStr "sự kiện diễn ra") keyword) = false := by decide
  have h96 : ((9:ℚ)/10 > 6/10) := by norm_num
  have h76 : ¬ ((7:ℚ)/10 > 6/10 ∧ False) := by simp
  simp only [step5, c1results, final_scores_loop, take_min_three]
  norm_num [h1, h2]
  simp
  norm_num

/-- C1, amended: each of the top-3 scores is adjusted by the refutation
rule (inverted exactly when the lowercased title contains a refutation
keyword and the raw score exceeds 0.6), but the score fed to
`generate_verdict` is the adjusted score of the raw-rank-1 reference
(`top_scores[0]`), not the maximum of the adjusted scores. -/
theorem c1_amended (results : List SimResult) (r : SimResult)
    (h : results.head? = some r) :
    (step5 results).2.1 =
      (if (refutation_keywords.any fun keyword =>
            containsSub (lowerStr r.title) keyword) ∧
          r.overall_similarity > 6/10 then 1 - r.overall_similarity
        else r.overall_similarity) ∧
    (step5 results).2.2 = generate_verdict ((step5 results).2.1) ∧
    (step5 results).1 = final_scores_loop (results.take (min 3 results.length)) := by
  cases results with
  | nil => simp at h
  | cons a tl =>
    have ha : a = r := by simpa using h
    subst ha
    have ht : (a :: tl).take (min 3 (a :: tl).length) = a :: tl.take 2 := by
      rw [take_min_three]
      rfl
    refine ⟨?_, rfl, ?_⟩
    · simp only [step5, ht, final_scores_loop]
      simp
    · simp only [step5, ht, final_scores_loop]
      simp

/-- C1, witness for the amended theorem at the concrete `c1results`. -/
theorem c1_witness :
    (step5 c1results).2.1 =
      (if (refutation_keywords.any fun keyword =>
            containsSub (lowerStr "thực hư tin đồn về sự kiện") keyword) ∧
          ((9:ℚ)/10) > 6/10 then 1 - (9:ℚ)/10 else (9:ℚ)/10) ∧
    (step5 c1results).2.2 = generate_verdict ((step5 c1results).2.1) ∧
    (step5 c1results).1 = final_scores_loop (c1results.take (min 3 c1results.length)) :=
  c1_amended c1results
    ⟨"https://vnexpress.net/1", "thực hư tin đồn về sự kiện", "vnexpress.net",
      "VnExpress", 9/10⟩ rfl

/-! ## Claim C5 — crawler body-length invariant -/

set_option maxRecDepth 4000 in
/-- C5, counterexample: a 200-status fetch whose raw extracted body has
102 characters (passing the > 100 gate) produces a crawled article whose
stored, normalized content is `"ab"` — 2 characters, far below 100; the
preprocessor's `extract_from_url` behaves the same way. -/
theorem c5_counterexample :
    100 < c5raw.length ∧
    tryRequestsMethod "https://vnexpress.net/a"
        [FetchOutcome.status 200 ⟨"some title", "", c5raw⟩] =
      some ⟨"some title", "", "ab", "https://vnexpress.net/a", "vnexpress.net"⟩ ∧
    (extract_from_url "https://vnexpress.net/a"
        (FetchResult.success ⟨"some title", "", c5raw⟩)).map
        (fun a => a.content.length) = some 2 ∧
    ¬ 100 ≤ 2 := by
  refine ⟨by decide, by decide, by decide, by decide⟩

/-- C5, amended: the 100-character gate (`> 100` in the Crawler, `≥ 100`
in the preprocessor) is applied to the raw extracted content, before
normalization; the returned record stores the `normalize_text`-ed content,
which can be arbitrarily shorter than 100. -/
theorem c5_amended :
    (∀ (url : String) (attempts : List FetchOutcome) (a : CrawledArticle),
        tryRequestsMethod url attempts = some a →
        ∃ doc code, FetchOutcome.status code doc ∈ attempts ∧ code = 200 ∧
          100 < doc.content.length ∧ a.content = normalize_text doc.content ∧
          a.url = url) ∧
    (∀ (url : String) (fetched : FetchResult) (a : CrawledArticle),
        extract_from_url url fetched = some a →
        ∃ doc, fetched = FetchResult.success doc ∧ 100 ≤ doc.content.length ∧
          a.content = normalize_text doc.content ∧ a.url = url) := by
  constructor
  · intro url attempts a h
    obtain ⟨doc, code, hm, hc⟩ := tryRequestsLoop_spec url _ a h
    exact ⟨doc, code, (List.take_sublist _ _).mem hm, hc⟩
  · intro url fetched a h
    cases fetched with
    | failure => simp [extract_from_url] at h
    | success doc =>
      simp only [extract_from_url] at h
      split at h
      · simp at h
      · rename_i hcond
        push_neg at hcond
        have ha := Option.some.inj h
        exact ⟨doc, rfl, hcond.2, by rw [← ha], by rw [← ha]⟩

set_option maxRecDepth 4000 in
/-- C5, witness for the amended theorem: a 150-character all-letter body
passes both gates and survives normalization unchanged. -/
theorem c5_witness :
    (∃ doc code,
        FetchOutcome.status code doc ∈
          [FetchOutcome.status 200 (⟨"good title", "", c5good⟩ : Extracted)] ∧
        code = 200 ∧ 100 < doc.content.length ∧
        c5goodArticle.content = normalize_text doc.content ∧
        c5goodArticle.url = "https://vnexpress.net/b") ∧
    (∃ doc,
        FetchResult.success (⟨"good title", "", c5good⟩ : Extracted) =
          FetchResult.success doc ∧
        100 ≤ doc.content.length ∧
        c5goodArticle.content = normalize_text doc.content ∧
        c5goodArticle.url = "https://vnexpress.net/b") :=
  ⟨c5_amended.1 "https://vnexpress.net/b" _ c5goodArticle (by decide),
   c5_amended.2 "https://vnexpress.net/b" _ c5goodArticle (by decide)⟩

/-! ## Claim C2 — de-duplication key -/

/-- C2, counterexample: a search whose API strategy returns
`https://vnexpress.net/x` and `https://vnexpress.net/x?ref=1` — equal
after stripping the query string — keeps both in the merged output: the
de-duplication key is the raw URL, so this normalized URL appears twice,
not exactly once. -/
theorem c2_counterexample :
    Except.map (fun p => p.1.map fun c => c.url)
        (search_for_fact_check c2oracle false [] [] "breaking storm damage downtown" [] 5) =
      Except.ok ["https://vnexpress.net/x", "https://vnexpress.net/x?ref=1"] ∧
    clean_url "https://vnexpress.net/x?ref=1" = clean_url "https://vnexpress.net/x" ∧
    Except.map (fun p => (p.1.filter fun c => clean_url c.url = "https://vnexpress.net/x").length)
        (search_for_fact_check c2oracle false [] [] "breaking storm damage downtown" [] 5) =
      Except.ok 2 := by
  refine ⟨by decide, by decide, by decide⟩

/-- C2, amended: the merged output contains each RAW URL exactly once
(the de-duplication key is the exact URL string, not the normalized one):
the de-duplicated list has pairwise-distinct URLs, every input URL is
represented in it, and every normally-returned (`ok`) output of
`search_for_fact_check` has pairwise-distinct raw URLs. -/
theorem c2_amended (l : List Candidate) (r : Candidate) (h : r ∈ l) :
    ((dedup_by_url l).map fun c => c.url).Nodup ∧
    r.url ∈ ((dedup_by_url l).map fun c => c.url) ∧
    ∀ (O : SearchOracle) (ce : Bool) (cache : Cache) (keywords : List String)
      (title : String) (numbers : List String) (n : Nat) (p : List Candidate × Cache),
      search_for_fact_check O ce cache keywords title numbers n = Except.ok p →
      ((p.1).map fun c => c.url).Nodup := by
  refine ⟨dedupFold_nodup l [] (by simp), dedupFold_mem l [] r h, ?_⟩
  intro O ce cache keywords title numbers n p hp
  unfold search_for_fact_check at hp
  dsimp only at hp
  split_ifs at hp
  · injection hp with hp'
    subst hp'
    simp
  · injection hp with hp'
    subst hp'
    simp
  · split at hp
    · simp at hp
    · rename_i p' heq
      injection hp with hp'
      subst hp'
      have hnd : ((dedup_by_url p'.1).map fun c => c.url).Nodup :=
        dedupFold_nodup _ [] (by simp)
      exact ((List.take_sublist _ _).map _).nodup hnd

/-- C2, witness for the amended theorem at a two-element list sharing a
raw URL. -/
theorem c2_witness :
    ((dedup_by_url
        [⟨"https://vnexpress.net/y", "title one", "", "s", "vnexpress.net"⟩,
         ⟨"https://vnexpress.net/y", "title two", "", "s", "vnexpress.net"⟩]).map
      fun c => c.url).Nodup ∧
    "https://vnexpress.net/y" ∈
      ((dedup_by_url
        [⟨"https://vnexpress.net/y", "title one", "", "s", "vnexpress.net"⟩,
         ⟨"https://vnexpress.net/y", "title two", "", "s", "vnexpress.net"⟩]).map
        fun c => c.url) ∧
    ∀ (O : SearchOracle) (ce : Bool) (cache : Cache) (keywords : List String)
      (title : String) (numbers : List String) (n : Nat) (p : List Candidate × Cache),
      search_for_fact_check O ce cache keywords title numbers n = Except.ok p →
      ((p.1).map fun c => c.url).Nodup :=
  c2_amended
    [⟨"https://vnexpress.net/y", "title one", "", "s", "vnexpress.net"⟩,
     ⟨"https://vnexpress.net/y", "title two", "", "s", "vnexpress.net"⟩]
    ⟨"https://vnexpress.net/y", "title one", "", "s", "vnexpress.net"⟩ (by decide)

/-! ## Claim C3 — search failure contract -/

/-- C3, counterexample: with missing credentials and every site search
and scraping call failing — the claim's own total-failure scenario — a
parallel stage that hits the 30-second `as_completed` bound makes
`search_for_fact_check` raise `concurrent.futures.TimeoutError` instead
of returning an empty list: the iteration at web_searcher.py line 556
sits outside the per-future `try`, and no enclosing handler in the
searcher catches it. -/
theorem c3_counterexample :
    c3timeoutOracle.creds = false ∧
    c3timeoutOracle.parallelTimeout "breaking storm damage downtown" = true ∧
    search_for_fact_check c3timeoutOracle false [] [] "breaking storm damage downtown" [] 5 =
      Except.error "concurrent.futures.TimeoutError" := by
  refine ⟨rfl, rfl, by decide⟩

/-- C3, amended: the only exception `search_for_fact_check` can raise is
the parallel stage's `as_completed` timeout (every error of the function
traces back to a built query whose parallel stage timed out). When no
parallel stage times out: on total failure of every strategy for every
query (missing credentials, all site searches and scraping failing) it
returns an empty list and caches nothing, and a single query whose every
strategy fails is skipped rather than propagated, processing continuing
with the remaining queries. -/
theorem c3_error_contract :
    (∀ (O : SearchOracle) (ce : Bool) (keywords : List String) (title : String)
        (numbers : List String) (n : Nat),
        O.creds = false →
        (∀ d q, ∃ e, O.perSite d q = Except.error e) →
        (∀ q, ∃ e, O.scrape q = Except.error e) →
        (∀ q, O.parallelTimeout q = false) →
        search_for_fact_check O ce [] keywords title numbers n = Except.ok ([], [])) ∧
    (∀ (O : SearchOracle) (ce : Bool) (n : Nat) (q : String) (rest : List String)
        (acc : List Candidate) (cache : Cache),
        (∃ e, O.api q = Except.error e) →
        (∀ d, ∃ e, O.perSite d q = Except.error e) →
        (∃ e, O.scrape q = Except.error e) →
        O.parallelTimeout q = false →
        cacheGet cache q = none →
        acc.length < n * 2 →
        query_loop O ce n (q :: rest) acc cache = query_loop O ce n rest acc cache) ∧
    (∀ (O : SearchOracle) (ce : Bool) (cache : Cache) (keywords : List String)
        (title : String) (numbers : List String) (n : Nat) (e : String),
        search_for_fact_check O ce cache keywords title numbers n = Except.error e →
        ∃ q ∈ build_smart_queries keywords title numbers, O.parallelTimeout q = true) := by
  refine ⟨?_, ?_, ?_⟩
  · intro O ce keywords title numbers n hc hs hg hpt
    unfold search_for_fact_check
    dsimp only
    split_ifs
    · rfl
    · rfl
    · rw [query_loop_all_fail O ce n hc hs hg hpt]
      simp [dedup_by_url]
  · exact fun O ce n q rest acc cache hapi hs hg hpt hcache hlen =>
      query_loop_skip_failed O ce n q rest acc cache hapi hs hg hpt hcache hlen
  · exact fun O ce cache keywords title numbers n e h =>
      search_for_fact_check_error O ce cache keywords title numbers n e h

/-- C3, witness: the all-failing (never-timing-out) searcher for the
total-failure and skip parts, and the timing-out searcher for the
error-provenance part, at concrete inputs. -/
theorem c3_witness :
    search_for_fact_check searchFail true [] ["storm"] "breaking storm damage downtown" [] 5 =
      Except.ok ([], []) ∧
    query_loop searchFail true 5 ["breaking storm damage downtown"] [] [] =
      query_loop searchFail true 5 [] [] [] ∧
    ∃ q ∈ build_smart_queries [] "breaking storm damage downtown" [],
      c3timeoutOracle.parallelTimeout q = true :=
  ⟨c3_error_contract.1 searchFail true ["storm"] "breaking storm damage downtown" [] 5 rfl
      (fun d q => ⟨"unreachable", rfl⟩) (fun q => ⟨"unreachable", rfl⟩) (fun q => rfl),
   c3_error_contract.2.1 searchFail true 5 "breaking storm damage downtown" [] [] []
      ⟨"unreachable", rfl⟩ (fun d => ⟨"unreachable", rfl⟩) ⟨"unreachable", rfl⟩ rfl rfl
      (by decide),
   c3_error_contract.2.2 c3timeoutOracle false [] [] "breaking storm damage downtown" [] 5
      "concurrent.futures.TimeoutError" (by decide)⟩

/-! ## Claim C9 — the early-stop threshold -/

/-- C9, counterexample: with `num_results = 1`, the cache holds 2 results
(= 2 · 1) for the first of the two query variants. The cache hit reaches
the threshold, yet the second variant is still searched and its results
are written to the cache: the `continue` of the cache-hit path skips the
stop check, refuting "stops issuing further queries as soon as the
accumulated result count reaches twice the requested number". -/
theorem c9_counterexample :
    1 * 2 ≤ c9hit.length ∧
    cacheGet c9cache c9query₁ = some c9hit ∧
    build_smart_queries [] "breaking storm damage downtown" ["2024"] = [c9query₁, c9query₂] ∧
    Except.map (fun p => cacheGet p.2 c9query₂)
        (search_for_fact_check c9oracle true c9cache [] "breaking storm damage downtown"
          ["2024"] 1) =
      Except.ok (some [⟨"https://vnexpress.net/unique-article", "fresh title", "s",
        "Google Search", "vnexpress.net"⟩]) := by
  refine ⟨by decide, by decide, by decide, by decide⟩

/-- C9, amended: the stop check runs only at the end of a cache-miss
iteration. A non-empty cache hit always continues to the next query
(regardless of the accumulated count), while a cache-miss query that
brings the accumulated count to at least `2 * num_results` ends the loop:
the remaining variants are neither searched nor written to the cache (the
result is that of the loop run on the single query alone). -/
theorem c9_amended :
    (∀ (O : SearchOracle) (n : Nat) (q : String) (rest : List String)
        (acc : List Candidate) (cache : Cache) (hit : List Candidate),
        cacheGet cache q = some hit → hit ≠ [] →
        query_loop O true n (q :: rest) acc cache =
          query_loop O true n rest (acc ++ hit) cache) ∧
    (∀ (O : SearchOracle) (ce : Bool) (n : Nat) (q : String) (rest : List String)
        (acc : List Candidate) (cache : Cache) (p : List Candidate × Cache),
        (if ce then (cacheGet cache q).getD [] else []) = [] →
        query_loop O ce n [q] acc cache = Except.ok p →
        n * 2 ≤ p.1.length →
        query_loop O ce n (q :: rest) acc cache = query_loop O ce n [q] acc cache) := by
  constructor
  · intro O n q rest acc cache hit hget hne
    simp only [query_loop, hget]
    simp [hne]
  · intro O ce n q rest acc cache p hmiss hok hthresh
    simp only [query_loop, hmiss] at hok ⊢
    simp only [ne_eq, not_true_eq_false, if_false, ite_self,
      eq_self_iff_true, not_true] at hok ⊢
    split at hok
    · simp at hok
    · injection hok with hok'
      subst hok'
      rw [if_pos hthresh]

/-- C9, witness for the amended theorem: the cache-hit continuation and
the cache-miss stop, both at the concrete scenario data. -/
theorem c9_witness :
    query_loop c9oracle true 1 [c9query₁, c9query₂] [] c9cache =
      query_loop c9oracle true 1 [c9query₂] ([] ++ c9hit) c9cache ∧
    query_loop c9oracle true 1 [c9query₂, "extra query"] c9hit [] =
      query_loop c9oracle true 1 [c9query₂] c9hit [] :=
  ⟨c9_amended.1 c9oracle 1 c9query₁ [c9query₂] [] c9cache c9hit (by decide) (by decide),
   c9_amended.2 c9oracle true 1 c9query₂ ["extra query"] c9hit []
      (c9hit ++ [⟨"https://vnexpress.net/unique-article", "fresh title", "s",
        "Google Search", "vnexpress.net"⟩],
       [(c9query₂, [⟨"https://vnexpress.net/unique-article", "fresh title", "s",
        "Google Search", "vnexpress.net"⟩])])
      (by decide) (by decide) (by decide)⟩

/-! ## Claim C7 — self-reference filtering and the forced UNCERTAIN verdict -/

/-- C7: for URL input, candidates whose URL equals the input URL after
stripping query string and fragment from both are removed before crawling
(no such candidate survives the filter); and when this filtering empties a
non-empty candidate set, `check_fact` returns status
`no_other_references` with the verdict generated from score 0.5, whose
code is `UNCERTAIN`, rather than failing. -/
theorem c7_self_url (user_input : String) (pd : Processed) (O : SearchOracle)
    (ce : Bool) (cache : Cache) (crawl : String → Option CrawlContent)
    (simOf : String → ℚ) (n : Nat) (p : List Candidate × Cache)
    (hlong : ¬ (pd.keywords = [] ∧ pd.full_text.length < 15))
    (hok : search_for_fact_check O ce cache pd.keywords pd.title pd.numbers n = Except.ok p)
    (hrefs : p.1 ≠ [])
    (hempty : (p.1).filter
        (fun article => clean_url article.url ≠ clean_url user_input) = []) :
    (check_fact "url" user_input (some pd) O ce cache crawl simOf n).status =
      "no_other_references" ∧
    (check_fact "url" user_input (some pd) O ce cache crawl simOf n).verdict =
      some (generate_verdict (1/2)) ∧
    (generate_verdict (1/2)).verdict = "UNCERTAIN" ∧
    (check_fact "url" user_input (some pd) O ce cache crawl simOf n).average_similarity =
      some (1/2) ∧
    (check_fact "url" user_input (some pd) O ce cache crawl simOf n).top_references =
      some [] ∧
    ∀ (l : List Candidate) (article : Candidate),
      clean_url article.url = clean_url user_input →
      article ∉ l.filter fun a => clean_url a.url ≠ clean_url user_input := by
  have hcheck : check_fact "url" user_input (some pd) O ce cache crawl simOf n =
      ⟨"no_other_references",
        some "Không tìm thấy bài báo tham khảo NÀO KHÁC. Đây có thể là tin gốc.",
        none, some (generate_verdict (1/2)), some (1/2), none, none, some []⟩ := by
    simp only [check_fact]
    rw [if_neg hlong, hok]
    dsimp only
    rw [if_neg hrefs]
    simp only [if_true]
    rw [if_pos hempty]
  refine ⟨by rw [hcheck], by rw [hcheck], ?_, by rw [hcheck], by rw [hcheck], ?_⟩
  · rw [verdict_code]
    norm_num
  · intro l article hurl hmem
    rw [List.mem_filter] at hmem
    simp [hurl] at hmem

/-- C7, witness: the self-URL-only scenario — the input URL's only hit is
a query-string variant of itself. -/
theorem c7_witness :
    (check_fact "url" "https://vnexpress.net/article-x" (some c7processed) c7oracle false []
        (fun _ => none) (fun _ => 0) 1).status = "no_other_references" ∧
    (check_fact "url" "https://vnexpress.net/article-x" (some c7processed) c7oracle false []
        (fun _ => none) (fun _ => 0) 1).verdict = some (generate_verdict (1/2)) ∧
    (generate_verdict (1/2)).verdict = "UNCERTAIN" ∧
    (check_fact "url" "https://vnexpress.net/article-x" (some c7processed) c7oracle false []
        (fun _ => none) (fun _ => 0) 1).average_similarity = some (1/2) ∧
    (check_fact "url" "https://vnexpress.net/article-x" (some c7processed) c7oracle false []
        (fun _ => none) (fun _ => 0) 1).top_references = some [] ∧
    ∀ (l : List Candidate) (article : Candidate),
      clean_url article.url = clean_url "https://vnexpress.net/article-x" →
      article ∉ l.filter
        fun a => clean_url a.url ≠ clean_url "https://vnexpress.net/article-x" :=
  c7_self_url "https://vnexpress.net/article-x" c7processed c7oracle false []
    (fun _ => none) (fun _ => 0) 1
    ([⟨"https://vnexpress.net/article-x?utm=1", "the original article", "s",
      "Google Search", "vnexpress.net"⟩], [])
    (by decide) (by decide) (by decide) (by decide)

/-! ## Claim C10 — `no_other_references` is reachable only for URL input -/

/-- C10: for every call whose `input_type` is not `"url"`, the returned
status is never `no_other_references` — the self-reference filter and its
terminal state exist only on the URL path. -/
theorem c10_url_only (input_type user_input : String) (processed? : Option Processed)
    (O : SearchOracle) (ce : Bool) (cache : Cache)
    (crawl : String → Option CrawlContent) (simOf : String → ℚ) (n : Nat)
    (h : input_type ≠ "url") :
    (check_fact input_type user_input processed? O ce cache crawl simOf n).status ≠
      "no_other_references" := by
  cases processed? with
  | none => simp [check_fact]
  | some processed =>
    simp only [check_fact]
    by_cases h1 : processed.keywords = [] ∧ processed.full_text.length < 15
    · simp [h1]
    · rw [if_neg h1]
      split
      · simp
      · split_ifs with h2 h3 h4 h5 <;> simp_all

/-- C10, witness at a concrete `"text"` call. -/
theorem c10_witness :
    (check_fact "text" "some plain input" none searchFail false []
        (fun _ => none) (fun _ => 0) 5).status ≠ "no_other_references" :=
  c10_url_only "text" "some plain input" none searchFail false []
    (fun _ => none) (fun _ => 0) 5 (by decide)

end FakeNews
